import Mathlib

/-!
Shallow embedding of the BayrolAS2mqtt bridge (src/app/PoolAccessMqttBridge.py,
src/app/hass/Sensor.py).

The bridge connects two MQTT sessions: the "poolaccess" client (device broker,
topics d02/<serial>/...) and the "brocker" client (home-automation broker).
Its event handlers are pure functions of the inbound message and the entity
catalog, except for their outbound effects (publishes, subscribes, log lines,
sleeps, process exit).  We embed each handler as a function returning the list
of those effects, in the order the Python code performs them.
-/

namespace Bayrol

/-- Modelled from the spec: the Entity class (src/app/hass/Entity.py is not in
the sources; only src/app/hass/Sensor.py, which sets type = "sensor", and the
bridge which consumes it).  `uid` is the device-side identifier, `key` the
automation-side slug, `etype` the entity-type discriminator ("sensor",
"switch", ...).  `state_topic`, `command_topic` and `build_config`'s output
(`config_topic`, `config_payload`) are derived topic strings; per the spec
build_config is deterministic, so we record its output directly.
`get_payload` is the value decoder: `none` models the JSONDecodeError raised
on a malformed payload; `get_payload_default` is the value returned by the
no-argument call `e.get_payload()` used for "get" queries. -/
structure Entity where
  uid : String
  key : String
  etype : String
  state_topic : String
  command_topic : String
  config_topic : String
  config_payload : String
  get_payload : String → Option String
  get_payload_default : String

/-- An inbound paho MQTTMessage as seen by the handlers: `topic` and `payload`
are `none` when the Python attribute is None (the `is None` guards in the
source distinguish None from the empty string / empty bytes). -/
structure MQTTMessage where
  topic : Option String
  payload : Option String
  qos : Nat

/-- Python truthiness of an optional string: None and the empty string/bytes
are falsy (used by on_brocker_message's `if not (... and message.payload and
message.topic ...)` guard). -/
def truthy : Option String → Bool
  | none => false
  | some s => !s.isEmpty

/-- Observable effects of the bridge: publishes on either client (with qos and
retain flag), subscriptions, log lines by level, the reconnect-delay sleep,
process exit, and the per-iteration loop() calls of the supervisor. -/
inductive Event where
  | pubBrocker (topic payload : String) (qos : Nat) (retain : Bool)
  | pubPoolaccess (topic payload : String) (qos : Nat) (retain : Bool)
  | subBrocker (topic : String)
  | subPoolaccess (topic : String)
  | logDebug (msg : String)
  | logInfo (msg : String)
  | logWarning (msg : String)
  | logError (msg : String)
  | sleep (seconds : Nat)
  | exitProcess (code : Nat)
  | loopBrocker
  | loopPoolaccess
  | reconnectBrocker
  | reconnectPoolaccess
  deriving DecidableEq

/-- The bridge state from PoolAccessMqttBridge.__init__: base topic, device
serial, the (already disabled-filtered) entity catalog, both clients (implicit
in the event constructors) and the fixed reconnect delay. -/
structure Bridge where
  mqtt_base_topic : String
  serial : String
  entities : List Entity
  reconnect_delay : Nat

/-- DEFAULT_RECONNECT_DELAY = 30 (PoolAccessMqttBridge.py line 34). -/
def DEFAULT_RECONNECT_DELAY : Nat := 30

/-- paho's MQTT_ERR_SUCCESS status code. -/
def MQTT_ERR_SUCCESS : Nat := 0

/-- Character matching for the two regex patterns the bridge builds
(`".+/v/%s$" % uid` and `".+/%s/set$" % key`): in the pattern a dot matches
any character, every other character matches itself. -/
def charMatch (p c : Char) : Bool := p == '.' || p == c

/-- Full match of a pattern (dot = wildcard) against a character list. -/
def litMatch : List Char → List Char → Bool
  | [], [] => true
  | p :: ps, c :: cs => charMatch p c && litMatch ps cs
  | _, _ => false

/-- Semantics of `re.match(".+" + tail + "$", topic)`: at least one leading
character, then `tail` matches the rest of the topic exactly to the end. -/
def reMatchDotPlus (tail : String) (topic : String) : Bool :=
  go tail.toList topic.toList
where
  go (t : List Char) : List Char → Bool
    | [] => false
    | _ :: rest => litMatch t rest || go t rest

/-- `re.match(".+/v/%s$" % uid, topic)` — telemetry-topic match (line 66). -/
def telemetryMatch (uid topic : String) : Bool :=
  reMatchDotPlus ("/v/" ++ uid) topic

/-- `re.match(".+/%s/set$" % key, topic)` — command-topic match (line 122). -/
def commandMatch (key topic : String) : Bool :=
  reMatchDotPlus ("/" ++ key ++ "/set") topic

/-- `topic.endswith("/set")` (line 118). -/
def endsWithSet (topic : String) : Bool :=
  List.isSuffixOf "/set".toList topic.toList

/-- PoolAccessMqttBridge.on_poolaccess_message (lines 61-73).  Returns if
payload or topic is None (paho never delivers message = None, so the `not
message` conjunct is not modelled); otherwise scans every entity, and on a
telemetry match decodes via get_payload and publishes the decoded value to the
entity's state topic on the brocker, retained, same qos.  A JSONDecodeError
is caught and logged as an error. -/
def on_poolaccess_message (b : Bridge) (m : MQTTMessage) : List Event :=
  if m.payload.isNone || m.topic.isNone then []
  else
    let t := m.topic.getD ""
    let p := m.payload.getD ""
    Event.logDebug "[poolaccess] message" ::
    b.entities.flatMap (fun e =>
      if telemetryMatch e.uid t then
        Event.logInfo "Reading" ::
        (match e.get_payload p with
         | some v =>
             [Event.pubBrocker e.state_topic v m.qos true,
              Event.logInfo "Publishing to brocker"]
         | none => [Event.logError "JSONDecodeError"])
      else [])

/-- PoolAccessMqttBridge.on_poolaccess_connect (lines 75-97).  On rc = 0:
subscribe the device telemetry wildcard, then for every entity publish its
discovery config to the brocker (retained, qos 0) and a "get" query
d02/<serial>/g/<uid> to poolaccess (payload e.get_payload(), qos 0, not
retained).  On rc ≠ 0: log and exit(1). -/
def on_poolaccess_connect (b : Bridge) (rc : Nat) : List Event :=
  if rc = 0 then
    Event.logInfo "[poolaccess] connect" ::
    Event.logInfo "Subscribing to topic" ::
    Event.subPoolaccess ("d02/" ++ b.serial ++ "/v/#") ::
    b.entities.flatMap (fun e =>
      [Event.logInfo "Publishing to brocker",
       Event.pubBrocker e.config_topic e.config_payload 0 true,
       Event.logInfo "Publishing to poolaccess",
       Event.pubPoolaccess ("d02/" ++ b.serial ++ "/g/" ++ e.uid)
         e.get_payload_default 0 false])
  else
    [Event.logInfo "[poolaccess] connect: Connection failed",
     Event.exitProcess 1]

/-- PoolAccessMqttBridge.on_brocker_connect (lines 99-110).  On rc = 0:
subscribe the command topic of every entity that is a Switch (modelled from
the spec as etype = "switch"; src/app/hass/Switch.py is not in the sources)
and nothing else — in particular no publish at all.  On rc ≠ 0: log and
exit(1). -/
def on_brocker_connect (b : Bridge) (rc : Nat) : List Event :=
  if rc = 0 then
    Event.logInfo "[mqtt] connect" ::
    b.entities.flatMap (fun e =>
      if e.etype == "switch" then
        [Event.logInfo "Subscribing to topic", Event.subBrocker e.command_topic]
      else [])
  else
    [Event.logInfo "[mqtt] connect: Connection failed",
     Event.exitProcess 1]

/-- PoolAccessMqttBridge.on_brocker_message (lines 112-132).  Logs the message,
returns unless payload and topic are truthy and the topic ends with "/set";
otherwise scans every entity (of any type — no isinstance check here) and on a
key match republishes the raw payload retained to the entity's state topic on
the brocker (qos 0) and forwards it to d02/<serial>/s/<uid> on poolaccess
(qos 0, not retained). -/
def on_brocker_message (b : Bridge) (m : MQTTMessage) : List Event :=
  Event.logInfo "[mqtt] message" ::
  (if truthy m.payload && truthy m.topic && endsWithSet (m.topic.getD "") then
    let t := m.topic.getD ""
    let p := m.payload.getD ""
    b.entities.flatMap (fun e =>
      if commandMatch e.key t then
        [Event.logInfo "Publishing to brocker",
         Event.pubBrocker e.state_topic p 0 true,
         Event.logInfo "Publishing to poolaccess",
         Event.pubPoolaccess ("d02/" ++ b.serial ++ "/s/" ++ e.uid) p 0 false]
      else [])
  else [])

/-- One iteration of PoolAccessMqttBridge._multi_loop (lines 139-166).  The
loop() statuses of the two clients and whether each reconnect() raises are
inputs from the environment.  The iteration first calls brocker.loop, then
poolaccess.loop; for each non-success status it warns, attempts reconnect()
on that client only (an exception is caught and logged), then sleeps the
fixed reconnect delay. -/
def multi_loop_iter (b : Bridge) (brocker_status poolaccess_status : Nat)
    (brocker_reconnect_raises poolaccess_reconnect_raises : Bool) : List Event :=
  Event.loopBrocker :: Event.loopPoolaccess ::
  ((if brocker_status ≠ MQTT_ERR_SUCCESS then
      [Event.logWarning "Brocker Client has been disconnected",
       Event.reconnectBrocker]
      ++ (if brocker_reconnect_raises then
            [Event.logError "Reconnect exception occurred"] else [])
      ++ [Event.logInfo "Waiting", Event.sleep b.reconnect_delay]
    else [])
  ++ (if poolaccess_status ≠ MQTT_ERR_SUCCESS then
      [Event.logWarning "Poolaccess Client has been disconnected",
       Event.reconnectPoolaccess]
      ++ (if poolaccess_reconnect_raises then
            [Event.logError "Reconnect exception occurred"] else [])
      ++ [Event.logInfo "Waiting", Event.sleep b.reconnect_delay]
    else []))

/-- A run of the supervisor loop over a finite schedule of environment
observations (one tuple of loop statuses and reconnect outcomes per
iteration); the Python loop repeats indefinitely, every finite prefix of its
behaviour is a run. -/
def multi_loop_run (b : Bridge)
    (steps : List (Nat × Nat × Bool × Bool)) : List Event :=
  steps.flatMap (fun s => multi_loop_iter b s.1 s.2.1 s.2.2.1 s.2.2.2)

/-- PoolAccessMqttBridge.start (lines 168-190), with the two
establish_connection() return statuses as environment inputs.  Returns the
emitted events and whether the supervisor thread was started (the second
component): the thread starts only if both connections succeeded.  When it is
not started, start() returns with no live thread, so main() returns and the
process exits. -/
def start (_b : Bridge) (poolaccess_conn_status brocker_conn_status : Nat) :
    List Event × Bool :=
  let e1 := if poolaccess_conn_status ≠ 0 then
      [Event.logError "Poolaccess connection failure !"] else []
  let e2 := if brocker_conn_status ≠ 0 then
      [Event.logError "MQTT Brocker connection failure !"] else []
  let ok := poolaccess_conn_status = 0 ∧ brocker_conn_status = 0
  (e1 ++ e2 ++ (if ok then [Event.logInfo "Starting Multithreading"] else []),
   decide ok)

/-- One definition per entity-definition record for load_entities (lines
193-210): the loader skips records flagged disabled and instantiates the
entity class for the rest (class construction is abstracted as the `entity`
field). -/
structure EntityDef where
  entity : Entity
  disabled : Bool

/-- PoolAccessMqttBridge.load_entities (lines 193-210): ordered catalog of the
non-disabled definitions. -/
def load_entities (defs : List EntityDef) : List Entity :=
  (defs.filter (fun d => !d.disabled)).map (fun d => d.entity)

/-- Processing of a finite stream of device-broker messages: the paho loop
delivers them one at a time to on_poolaccess_message. -/
def process_poolaccess_messages (b : Bridge) (ms : List MQTTMessage) :
    List Event :=
  ms.flatMap (on_poolaccess_message b)

/-! Event classifiers used to state the claims. -/

def isPubBrocker : Event → Bool
  | .pubBrocker _ _ _ _ => true
  | _ => false

def isPubPoolaccess : Event → Bool
  | .pubPoolaccess _ _ _ _ => true
  | _ => false

/-- Any outbound publish, on either client. -/
def isPub (ev : Event) : Bool := isPubBrocker ev || isPubPoolaccess ev

def isSub : Event → Bool
  | .subBrocker _ => true
  | .subPoolaccess _ => true
  | _ => false

def isErrorLog : Event → Bool
  | .logError _ => true
  | _ => false

def isSleep : Event → Bool
  | .sleep _ => true
  | _ => false

def isLoopCall : Event → Bool
  | .loopBrocker => true
  | .loopPoolaccess => true
  | _ => false

def isReconnectBrocker : Event → Bool
  | .reconnectBrocker => true
  | _ => false

def isReconnectPoolaccess : Event → Bool
  | .reconnectPoolaccess => true
  | _ => false

def isReconnect (ev : Event) : Bool :=
  isReconnectBrocker ev || isReconnectPoolaccess ev

/-- Operations acting on the brocker session (reconnect, subscribe, publish);
loop() calls are not included. -/
def opOnBrocker : Event → Bool
  | .reconnectBrocker => true
  | .subBrocker _ => true
  | .pubBrocker _ _ _ _ => true
  | _ => false

/-- Operations acting on the poolaccess session (reconnect, subscribe,
publish); loop() calls are not included. -/
def opOnPoolaccess : Event → Bool
  | .reconnectPoolaccess => true
  | .subPoolaccess _ => true
  | .pubPoolaccess _ _ _ _ => true
  | _ => false

/-! Test fixtures, following the scenario of spec section 8: a catalog with a
sensor (uid "12", key "ph") and a switch (uid "34", key "relay"). -/

/-- Fixture: a sensor entity whose decoder accepts any payload unchanged. -/
def phSensor : Entity where
  uid := "12"
  key := "ph"
  etype := "sensor"
  state_topic := "homeassistant/sensor/SN1/ph/state"
  command_topic := "homeassistant/sensor/SN1/ph/set"
  config_topic := "homeassistant/sensor/SN1/ph/config"
  config_payload := "cfg-ph"
  get_payload := fun s => some s
  get_payload_default := "g"

/-- Fixture: a switch entity. -/
def relaySwitch : Entity where
  uid := "34"
  key := "relay"
  etype := "switch"
  state_topic := "homeassistant/switch/SN1/relay/state"
  command_topic := "homeassistant/switch/SN1/relay/set"
  config_topic := "homeassistant/switch/SN1/relay/config"
  config_payload := "cfg-relay"
  get_payload := fun s => some s
  get_payload_default := "g"

/-- Fixture: a sensor whose decoder always raises JSONDecodeError. -/
def badSensor : Entity :=
  { phSensor with
      uid := "77"
      key := "bad"
      state_topic := "homeassistant/sensor/SN1/bad/state"
      get_payload := fun _ => none }

/-- Fixture bridge holding the section 8 scenario catalog. -/
def testBridge : Bridge where
  mqtt_base_topic := "bayrol"
  serial := "SN1"
  entities := [phSensor, relaySwitch]
  reconnect_delay := DEFAULT_RECONNECT_DELAY

/-- Fixture bridge whose only entity has a failing decoder. -/
def badBridge : Bridge := { testBridge with entities := [badSensor] }

/-! General list lemmas used by several claims. -/

theorem flatMap_filter {α β : Type} (p : β → Bool) (f : α → List β)
    (l : List α) :
    (l.flatMap f).filter p = l.flatMap (fun x => (f x).filter p) := by
  induction l with
  | nil => rfl
  | cons a t ih => simp [List.flatMap_cons, List.filter_append, ih]

theorem flatMap_congr {α β : Type} (l : List α) (f g : α → List β)
    (h : ∀ x ∈ l, f x = g x) :
    l.flatMap f = l.flatMap g := by
  induction l with
  | nil => rfl
  | cons a t ih =>
    simp only [List.flatMap_cons]
    rw [h a (by simp), ih (fun x hx => h x (by simp [hx]))]

theorem flatMap_if_nil {α β : Type} (q : α → Bool) (g : α → List β)
    (l : List α) (h : l.filter q = []) :
    (l.flatMap fun x => if q x then g x else []) = [] := by
  induction l with
  | nil => rfl
  | cons a t ih =>
    rw [List.filter_cons] at h
    by_cases hq : q a
    · simp [hq] at h
    · simp only [hq] at h
      simp [List.flatMap_cons, hq, ih h]

theorem flatMap_if_single {α β : Type} (q : α → Bool) (g : α → List β)
    (l : List α) (a : α) (h : l.filter q = [a]) :
    (l.flatMap fun x => if q x then g x else []) = g a := by
  induction l with
  | nil => simp at h
  | cons x t ih =>
    rw [List.filter_cons] at h
    by_cases hq : q x
    · simp only [hq, if_pos] at h
      obtain ⟨rfl, ht⟩ := List.cons_eq_cons.mp h
      simp [List.flatMap_cons, hq, flatMap_if_nil q g t ht]
    · simp only [hq] at h
      simp [List.flatMap_cons, hq, ih h]

theorem flatMap_singleton_eq_map {α β : Type} (f : α → β) (l : List α) :
    (l.flatMap fun x => [f x]) = l.map f := by
  induction l with
  | nil => rfl
  | cons a t ih => simp [List.flatMap_cons, ih]

/-! Shared characterization lemmas about the handlers. -/

/-- The loop() calls of one supervisor iteration, in the order performed:
brocker first, then poolaccess (lines 141-142). -/
theorem multi_loop_iter_loopCalls (b : Bridge) (bs ps : Nat) (br pr : Bool) :
    (multi_loop_iter b bs ps br pr).filter isLoopCall
      = [Event.loopBrocker, Event.loopPoolaccess] := by
  unfold multi_loop_iter
  by_cases h1 : bs ≠ MQTT_ERR_SUCCESS <;>
    by_cases h2 : ps ≠ MQTT_ERR_SUCCESS <;>
      cases br <;> cases pr <;>
        simp [h1, h2, isLoopCall, List.filter_append]

/-- Every sleep performed by one supervisor iteration lasts exactly the fixed
reconnect delay. -/
theorem multi_loop_iter_sleeps (b : Bridge) (bs ps : Nat) (br pr : Bool) :
    ((multi_loop_iter b bs ps br pr).filter isSleep).all
      (fun ev => ev == Event.sleep b.reconnect_delay) = true := by
  unfold multi_loop_iter
  by_cases h1 : bs ≠ MQTT_ERR_SUCCESS <;>
    by_cases h2 : ps ≠ MQTT_ERR_SUCCESS <;>
      cases br <;> cases pr <;>
        simp [h1, h2, isSleep, List.filter_append]

/-- Python truthiness of a present non-empty string. -/
theorem truthy_some (s : String) (h : s ≠ "") : truthy (some s) = true := by
  simp only [truthy, Bool.not_eq_true']
  exact Bool.eq_false_iff.mpr (fun hc => h ((String.isEmpty_iff s).mp hc))

/-- A topic that ends with "/set" is non-empty. -/
theorem endsWithSet_ne_empty (t : String) (h : endsWithSet t = true) :
    t ≠ "" := by
  intro he
  subst he
  exact absurd h (by decide)

theorem flatMap_const_nil {α β : Type} (l : List α) :
    (l.flatMap fun _ => ([] : List β)) = [] := by
  induction l with
  | nil => rfl
  | cons a t ih => simp [List.flatMap_cons, ih]

/-- Outbound publishes of on_brocker_message when a unique entity matches the
command pattern: the retained state republish on the brocker followed by the
device write on poolaccess. -/
theorem brocker_message_route (b : Bridge) (E : Entity) (t p : String)
    (q : Nat) (hp : p ≠ "") (hset : endsWithSet t = true)
    (huniq : b.entities.filter (fun e => commandMatch e.key t) = [E]) :
    (on_brocker_message b ⟨some t, some p, q⟩).filter isPub
      = [Event.pubBrocker E.state_topic p 0 true,
         Event.pubPoolaccess ("d02/" ++ b.serial ++ "/s/" ++ E.uid) p 0
           false] := by
  have ht := endsWithSet_ne_empty t hset
  have hcong := flatMap_congr b.entities
    (fun e => ((if commandMatch e.key t then
        [Event.logInfo "Publishing to brocker",
         Event.pubBrocker e.state_topic p 0 true,
         Event.logInfo "Publishing to poolaccess",
         Event.pubPoolaccess ("d02/" ++ b.serial ++ "/s/" ++ e.uid) p 0
           false]
      else []).filter isPub))
    (fun e => if commandMatch e.key t then
        [Event.pubBrocker e.state_topic p 0 true,
         Event.pubPoolaccess ("d02/" ++ b.serial ++ "/s/" ++ e.uid) p 0
           false]
      else [])
    (fun e _ => by
      by_cases hc : commandMatch e.key t <;>
        simp [hc, isPub, isPubBrocker, isPubPoolaccess])
  simp only [on_brocker_message, truthy_some p hp, truthy_some t ht, hset,
    Bool.and_self, Bool.true_and, if_true, Option.getD_some,
    List.filter_cons]
  rw [show isPub (Event.logInfo "[mqtt] message") = false from rfl]
  simp only [Bool.false_eq_true, if_false]
  rw [flatMap_filter, hcong, flatMap_if_single _ _ _ E huniq]

/-- Observable outcome of on_poolaccess_message when a unique entity matches
the telemetry pattern: its decoded value is published retained (same qos) on
decode success, and a single error is logged on decode failure. -/
theorem poolaccess_message_route (b : Bridge) (E : Entity) (t p : String)
    (q : Nat)
    (huniq : b.entities.filter (fun e => telemetryMatch e.uid t) = [E]) :
    ((on_poolaccess_message b ⟨some t, some p, q⟩).filter isPub
      = (match E.get_payload p with
         | some v => [Event.pubBrocker E.state_topic v q true]
         | none => []))
    ∧ ((on_poolaccess_message b ⟨some t, some p, q⟩).filter isErrorLog
      = (match E.get_payload p with
         | some _ => []
         | none => [Event.logError "JSONDecodeError"])) := by
  constructor
  · have hcong := flatMap_congr b.entities
      (fun e => ((if telemetryMatch e.uid t then
          Event.logInfo "Reading" ::
          (match e.get_payload p with
           | some v =>
               [Event.pubBrocker e.state_topic v q true,
                Event.logInfo "Publishing to brocker"]
           | none => [Event.logError "JSONDecodeError"])
        else []).filter isPub))
      (fun e => if telemetryMatch e.uid t then
          (match e.get_payload p with
           | some v => [Event.pubBrocker e.state_topic v q true]
           | none => [])
        else [])
      (fun e _ => by
        by_cases hc : telemetryMatch e.uid t <;>
          [skip; simp [hc]]
        cases hd : e.get_payload p <;>
          simp [hc, hd, isPub, isPubBrocker, isPubPoolaccess])
    simp only [on_poolaccess_message, Option.isNone_some, Bool.or_self,
      Bool.false_eq_true, if_false, Option.getD_some, List.filter_cons]
    rw [show isPub (Event.logDebug "[poolaccess] message") = false from rfl]
    simp only [Bool.false_eq_true, if_false]
    rw [flatMap_filter, hcong, flatMap_if_single _ _ _ E huniq]
  · have hcong := flatMap_congr b.entities
      (fun e => ((if telemetryMatch e.uid t then
          Event.logInfo "Reading" ::
          (match e.get_payload p with
           | some v =>
               [Event.pubBrocker e.state_topic v q true,
                Event.logInfo "Publishing to brocker"]
           | none => [Event.logError "JSONDecodeError"])
        else []).filter isErrorLog))
      (fun e => if telemetryMatch e.uid t then
          (match e.get_payload p with
           | some _ => ([] : List Event)
           | none => [Event.logError "JSONDecodeError"])
        else [])
      (fun e _ => by
        by_cases hc : telemetryMatch e.uid t <;>
          [skip; simp [hc]]
        cases hd : e.get_payload p <;>
          simp [hc, hd, isErrorLog])
    simp only [on_poolaccess_message, Option.isNone_some, Bool.or_self,
      Bool.false_eq_true, if_false, Option.getD_some, List.filter_cons]
    rw [show isErrorLog (Event.logDebug "[poolaccess] message") = false
      from rfl]
    simp only [Bool.false_eq_true, if_false]
    rw [flatMap_filter, hcong, flatMap_if_single _ _ _ E huniq]

/-- Subscriptions issued by on_brocker_connect on success: exactly the
command topics of the switch-typed entities, in catalog order. -/
theorem brocker_connect_subs (b : Bridge) :
    (on_brocker_connect b 0).filter isSub
      = (b.entities.filter (fun e => e.etype == "switch")).map
          (fun e => Event.subBrocker e.command_topic) := by
  have aux : ∀ (q : Entity → Bool) (l : List Entity),
      (l.flatMap (fun e => if q e then
          [Event.logInfo "Subscribing to topic",
           Event.subBrocker e.command_topic]
        else [])).filter isSub
        = (l.filter q).map (fun e => Event.subBrocker e.command_topic) := by
    intro q l
    induction l with
    | nil => rfl
    | cons a t ih =>
      by_cases h : q a <;>
        simp [List.flatMap_cons, List.filter_cons, h, List.filter_append,
          isSub, ih]
  unfold on_brocker_connect
  rw [if_pos rfl, List.filter_cons]
  rw [show isSub (Event.logInfo "[mqtt] connect") = false from rfl]
  simp only [Bool.false_eq_true, if_false]
  exact aux (fun e => e.etype == "switch") b.entities

/-- Discovery-config and get-query publishes of on_poolaccess_connect on
success: one of each per catalog entity, in catalog order. -/
theorem poolaccess_connect_pubs (b : Bridge) :
    (on_poolaccess_connect b 0).filter isPubBrocker
      = b.entities.map (fun e =>
          Event.pubBrocker e.config_topic e.config_payload 0 true)
    ∧ (on_poolaccess_connect b 0).filter isPubPoolaccess
      = b.entities.map (fun e =>
          Event.pubPoolaccess ("d02/" ++ b.serial ++ "/g/" ++ e.uid)
            e.get_payload_default 0 false) := by
  constructor
  · have hcong := flatMap_congr b.entities
      (fun e => (([Event.logInfo "Publishing to brocker",
          Event.pubBrocker e.config_topic e.config_payload 0 true,
          Event.logInfo "Publishing to poolaccess",
          Event.pubPoolaccess ("d02/" ++ b.serial ++ "/g/" ++ e.uid)
            e.get_payload_default 0 false] : List Event).filter
          isPubBrocker))
      (fun e => [Event.pubBrocker e.config_topic e.config_payload 0 true])
      (fun e _ => rfl)
    unfold on_poolaccess_connect
    rw [if_pos rfl, List.filter_cons,
      show isPubBrocker (Event.logInfo "[poolaccess] connect") = false
        from rfl]
    simp only [Bool.false_eq_true, if_false]
    rw [List.filter_cons,
      show isPubBrocker (Event.logInfo "Subscribing to topic") = false
        from rfl]
    simp only [Bool.false_eq_true, if_false]
    rw [List.filter_cons,
      show isPubBrocker (Event.subPoolaccess ("d02/" ++ b.serial ++ "/v/#"))
        = false from rfl]
    simp only [Bool.false_eq_true, if_false]
    rw [flatMap_filter, hcong, flatMap_singleton_eq_map]
  · have hcong := flatMap_congr b.entities
      (fun e => (([Event.logInfo "Publishing to brocker",
          Event.pubBrocker e.config_topic e.config_payload 0 true,
          Event.logInfo "Publishing to poolaccess",
          Event.pubPoolaccess ("d02/" ++ b.serial ++ "/g/" ++ e.uid)
            e.get_payload_default 0 false] : List Event).filter
          isPubPoolaccess))
      (fun e => [Event.pubPoolaccess ("d02/" ++ b.serial ++ "/g/" ++ e.uid)
          e.get_payload_default 0 false])
      (fun e _ => rfl)
    unfold on_poolaccess_connect
    rw [if_pos rfl, List.filter_cons,
      show isPubPoolaccess (Event.logInfo "[poolaccess] connect") = false
        from rfl]
    simp only [Bool.false_eq_true, if_false]
    rw [List.filter_cons,
      show isPubPoolaccess (Event.logInfo "Subscribing to topic") = false
        from rfl]
    simp only [Bool.false_eq_true, if_false]
    rw [List.filter_cons,
      show isPubPoolaccess
          (Event.subPoolaccess ("d02/" ++ b.serial ++ "/v/#"))
        = false from rfl]
    simp only [Bool.false_eq_true, if_false]
    rw [flatMap_filter, hcong, flatMap_singleton_eq_map]

/-- A successful brocker connect publishes nothing: it only subscribes. -/
theorem brocker_connect_no_pub (b : Bridge) :
    (on_brocker_connect b 0).filter isPub = [] := by
  have hcong := flatMap_congr b.entities
    (fun e => ((if e.etype == "switch" then
        [Event.logInfo "Subscribing to topic",
         Event.subBrocker e.command_topic]
      else []).filter isPub))
    (fun _ => ([] : List Event))
    (fun e _ => by
      by_cases h : e.etype == "switch" <;>
        simp [h, isPub, isPubBrocker, isPubPoolaccess])
  unfold on_brocker_connect
  rw [if_pos rfl, List.filter_cons,
    show isPub (Event.logInfo "[mqtt] connect") = false from rfl]
  simp only [Bool.false_eq_true, if_false]
  rw [flatMap_filter, hcong, flatMap_const_nil]

/-! Claim theorems. -/

/-- C3, counterexample: in a concrete supervisor iteration the loop calls are
NOT made device session (poolaccess) first — the first loop call of the
iteration is on the brocker (automation) client. -/
theorem c3_counterexample :
    (multi_loop_iter testBridge MQTT_ERR_SUCCESS MQTT_ERR_SUCCESS false
        false).filter isLoopCall
      ≠ [Event.loopPoolaccess, Event.loopBrocker]
    ∧ ((multi_loop_iter testBridge MQTT_ERR_SUCCESS MQTT_ERR_SUCCESS false
        false).filter isLoopCall).head? = some Event.loopBrocker := by
  decide

/-- C3 (amended): in every iteration of the supervisor loop the two sessions
are driven in the fixed order automation session (brocker client) first, then
device session (poolaccess client) — lines 141-142 of _multi_loop. -/
theorem c3_loop_order (b : Bridge) (bs ps : Nat) (br pr : Bool) :
    (multi_loop_iter b bs ps br pr).filter isLoopCall
      = [Event.loopBrocker, Event.loopPoolaccess] :=
  multi_loop_iter_loopCalls b bs ps br pr

/-- C4: if establish_connection returns non-zero for either session during
start(), the bridge logs the failure (an error log is emitted) and does not
start the supervisor processing loop (thread-started flag is false); since no
supervisor thread exists, start() and then main() return, so the process
exits immediately. -/
theorem c4_startup_failure (b : Bridge) (ps bs : Nat) (h : ps ≠ 0 ∨ bs ≠ 0) :
    (start b ps bs).2 = false ∧ (start b ps bs).1.filter isErrorLog ≠ [] := by
  constructor
  · rcases h with h | h <;> simp [start, h]
  · rcases h with h | h
    · simp [start, h, isErrorLog, List.filter_append]
    · simp [start, h, isErrorLog, List.filter_append]

/-- C4 witness: the poolaccess connection status 1 with a successful brocker
connection keeps the supervisor loop unstarted and logs an error. -/
theorem c4_witness :
    (start testBridge 1 0).2 = false
    ∧ (start testBridge 1 0).1.filter isErrorLog ≠ [] :=
  c4_startup_failure testBridge 1 0 (Or.inl (by decide))

/-- C7: in a supervisor iteration where exactly one session's loop() returns
non-success, reconnect() is invoked exactly once on that session and no
reconnect, subscribe or publish is performed on the other session. -/
theorem c7_isolated_reconnect (b : Bridge) (bs ps : Nat) (br pr : Bool) :
    (bs ≠ MQTT_ERR_SUCCESS → ps = MQTT_ERR_SUCCESS →
      ((multi_loop_iter b bs ps br pr).filter isReconnectBrocker
          = [Event.reconnectBrocker]
       ∧ (multi_loop_iter b bs ps br pr).all
          (fun ev => !opOnPoolaccess ev) = true))
    ∧ (ps ≠ MQTT_ERR_SUCCESS → bs = MQTT_ERR_SUCCESS →
      ((multi_loop_iter b bs ps br pr).filter isReconnectPoolaccess
          = [Event.reconnectPoolaccess]
       ∧ (multi_loop_iter b bs ps br pr).all
          (fun ev => !opOnBrocker ev) = true)) := by
  constructor
  · intro hb hp
    subst hp
    unfold multi_loop_iter
    cases br <;>
      simp [hb, isReconnectBrocker, opOnPoolaccess, List.filter_append]
  · intro hp hb
    subst hb
    unfold multi_loop_iter
    cases pr <;>
      simp [hp, isReconnectPoolaccess, opOnBrocker, List.filter_append]

/-- C7 witness: brocker loop status 1 and poolaccess loop status success give
one brocker reconnect and no operation on the poolaccess session. -/
theorem c7_witness :
    (multi_loop_iter testBridge 1 MQTT_ERR_SUCCESS false false).filter
        isReconnectBrocker = [Event.reconnectBrocker]
    ∧ (multi_loop_iter testBridge 1 MQTT_ERR_SUCCESS false false).all
        (fun ev => !opOnPoolaccess ev) = true :=
  (c7_isolated_reconnect testBridge 1 MQTT_ERR_SUCCESS false false).1
    (by decide) rfl

/-- C8: when both sessions fail in the same iteration the fixed delay is
applied twice, sequentially (reconnect brocker, sleep, reconnect poolaccess,
sleep); a raising reconnect() is caught and surfaced only as an error log
(the iteration still completes with the same reconnect/sleep sequence);
across any schedule every sleep equals the fixed delay (no backoff growth)
and every scheduled iteration performs its two loop calls (no retry cap). -/
theorem c8_per_failure_delay (b : Bridge) (bs ps : Nat) (br pr : Bool)
    (hb : bs ≠ MQTT_ERR_SUCCESS) (hp : ps ≠ MQTT_ERR_SUCCESS) :
    (multi_loop_iter b bs ps br pr).filter
        (fun ev => isReconnect ev || isSleep ev)
      = [Event.reconnectBrocker, Event.sleep b.reconnect_delay,
         Event.reconnectPoolaccess, Event.sleep b.reconnect_delay]
    ∧ ((multi_loop_iter b bs ps br pr).filter isErrorLog).length
        = ((if br then 1 else 0) + (if pr then 1 else 0) : Nat)
    ∧ (∀ steps, ((multi_loop_run b steps).filter isSleep).all
        (fun ev => ev == Event.sleep b.reconnect_delay) = true)
    ∧ (∀ steps, ((multi_loop_run b steps).filter isLoopCall).length
        = 2 * steps.length) := by
  refine ⟨?_, ?_, ?_, ?_⟩
  · unfold multi_loop_iter
    cases br <;> cases pr <;>
      simp [hb, hp, isReconnect, isReconnectBrocker, isReconnectPoolaccess,
        isSleep, List.filter_append]
  · unfold multi_loop_iter
    cases br <;> cases pr <;>
      simp [hb, hp, isErrorLog, List.filter_append]
  · intro steps
    induction steps with
    | nil => rfl
    | cons s t ih =>
      simp only [multi_loop_run, List.flatMap_cons, List.filter_append,
        List.all_append]
      rw [multi_loop_iter_sleeps]
      simpa [multi_loop_run] using ih
  · intro steps
    induction steps with
    | nil => rfl
    | cons s t ih =>
      simp only [multi_loop_run, List.flatMap_cons, List.filter_append,
        List.length_append]
      rw [multi_loop_iter_loopCalls]
      simp only [multi_loop_run] at ih
      rw [ih]
      simp [Nat.mul_succ, Nat.mul_add]
      omega

/-- C8 witness: brocker status 1, poolaccess status 2, brocker reconnect
raising — the delay is applied twice and one error is logged; a two-step
schedule keeps all sleeps at the fixed delay and performs four loop calls. -/
theorem c8_witness :
    (multi_loop_iter testBridge 1 2 true false).filter
        (fun ev => isReconnect ev || isSleep ev)
      = [Event.reconnectBrocker, Event.sleep testBridge.reconnect_delay,
         Event.reconnectPoolaccess, Event.sleep testBridge.reconnect_delay]
    ∧ ((multi_loop_iter testBridge 1 2 true false).filter isErrorLog).length
        = 1
    ∧ ((multi_loop_run testBridge
          [(1, 2, true, false), (0, 0, false, false)]).filter isSleep).all
        (fun ev => ev == Event.sleep testBridge.reconnect_delay) = true
    ∧ ((multi_loop_run testBridge
          [(1, 2, true, false), (0, 0, false, false)]).filter
        isLoopCall).length = 4 := by
  obtain ⟨h1, h2, h3, h4⟩ :=
    c8_per_failure_delay testBridge 1 2 true false (by decide) (by decide)
  exact ⟨h1, h2, h3 _, h4 _⟩

/-- C1: when the automation-broker message handler receives a message with a
non-empty payload whose topic ends with "/set" and matches the command
pattern of exactly the controllable (switch) entity E, it performs exactly
two outbound publishes: a retained publish of the original payload to
E.state_topic on the brocker, then a publish of the original payload to the
device write topic d02/<serial>/s/<E.uid> on poolaccess. -/
theorem c1_command_routing (b : Bridge) (E : Entity) (t p : String) (q : Nat)
    (hp : p ≠ "") (hset : endsWithSet t = true)
    (_hctrl : E.etype = "switch")
    (huniq : b.entities.filter (fun e => commandMatch e.key t) = [E]) :
    (on_brocker_message b ⟨some t, some p, q⟩).filter isPub
      = [Event.pubBrocker E.state_topic p 0 true,
         Event.pubPoolaccess ("d02/" ++ b.serial ++ "/s/" ++ E.uid) p 0
           false] :=
  brocker_message_route b E t p q hp hset huniq

/-- C1 witness: the command "ON" on the relay switch's command topic yields
exactly the retained state republish and the device write. -/
theorem c1_witness :
    (on_brocker_message testBridge
        ⟨some "homeassistant/switch/SN1/relay/set", some "ON", 0⟩).filter
      isPub
      = [Event.pubBrocker "homeassistant/switch/SN1/relay/state" "ON" 0 true,
         Event.pubPoolaccess "d02/SN1/s/34" "ON" 0 false] :=
  c1_command_routing testBridge relaySwitch
    "homeassistant/switch/SN1/relay/set" "ON" 0 (by decide) (by decide) rfl
    (by rfl)

/-- C2, counterexample: the claim quantifies over both sessions' connect
events, but a successful connect on the automation (brocker) session
publishes nothing at all, so with the two-entity catalog its discovery
publish count is 0, not the catalog size. -/
theorem c2_counterexample :
    ((on_brocker_connect testBridge 0).filter isPub).length = 0
    ∧ testBridge.entities.length = 2
    ∧ ((on_brocker_connect testBridge 0).filter isPub).length
        ≠ testBridge.entities.length := by
  decide

/-- C2 (amended): on a successful connect of the DEVICE session
(on_poolaccess_connect with rc = 0) the handler publishes exactly one
retained discovery config per catalog entity to the brocker and exactly one
get query per catalog entity to poolaccess, both counts equalling the
catalog size; a successful connect of the automation session publishes
nothing (it only subscribes); the catalog produced by load_entities has one
entry per non-disabled definition. -/
theorem c2_connect_publish_counts (b : Bridge) :
    ((on_poolaccess_connect b 0).filter isPubBrocker).length
        = b.entities.length
    ∧ ((on_poolaccess_connect b 0).filter isPubPoolaccess).length
        = b.entities.length
    ∧ (on_poolaccess_connect b 0).filter isPubBrocker
        = b.entities.map (fun e =>
            Event.pubBrocker e.config_topic e.config_payload 0 true)
    ∧ (on_poolaccess_connect b 0).filter isPubPoolaccess
        = b.entities.map (fun e =>
            Event.pubPoolaccess ("d02/" ++ b.serial ++ "/g/" ++ e.uid)
              e.get_payload_default 0 false)
    ∧ (on_brocker_connect b 0).filter isPub = []
    ∧ ∀ defs, (load_entities defs).length
        = (defs.filter (fun d => !d.disabled)).length := by
  obtain ⟨h1, h2⟩ := poolaccess_connect_pubs b
  exact ⟨by rw [h1]; simp, by rw [h2]; simp, h1, h2,
    brocker_connect_no_pub b, fun defs => by simp [load_entities]⟩

/-- C5: when the unique telemetry-matching entity's decoder fails on the
payload (get_payload raises JSONDecodeError), the handler performs zero
outbound publishes, logs exactly one error, and returns normally, so the
following messages of the stream are still processed. -/
theorem c5_decode_error (b : Bridge) (E : Entity) (t p : String) (q : Nat)
    (huniq : b.entities.filter (fun e => telemetryMatch e.uid t) = [E])
    (hdec : E.get_payload p = none) :
    (on_poolaccess_message b ⟨some t, some p, q⟩).filter isPub = []
    ∧ ((on_poolaccess_message b ⟨some t, some p, q⟩).filter
        isErrorLog).length = 1
    ∧ ∀ ms, process_poolaccess_messages b (⟨some t, some p, q⟩ :: ms)
        = on_poolaccess_message b ⟨some t, some p, q⟩
          ++ process_poolaccess_messages b ms := by
  obtain ⟨h1, h2⟩ := poolaccess_message_route b E t p q huniq
  rw [hdec] at h1 h2
  exact ⟨h1, by rw [h2]; rfl,
    fun ms => by simp [process_poolaccess_messages, List.flatMap_cons]⟩

/-- C5 witness: a malformed payload for the bad sensor yields no publish and
one error log, and message processing continues with the rest of the
stream. -/
theorem c5_witness :
    (on_poolaccess_message badBridge
        ⟨some "d02/SN1/v/77", some "oops", 0⟩).filter isPub = []
    ∧ ((on_poolaccess_message badBridge
        ⟨some "d02/SN1/v/77", some "oops", 0⟩).filter isErrorLog).length = 1
    ∧ ∀ ms, process_poolaccess_messages badBridge
          (⟨some "d02/SN1/v/77", some "oops", 0⟩ :: ms)
        = on_poolaccess_message badBridge ⟨some "d02/SN1/v/77", some "oops", 0⟩
          ++ process_poolaccess_messages badBridge ms :=
  c5_decode_error badBridge badSensor "d02/SN1/v/77" "oops" 0 (by rfl) rfl

/-- C6: an inbound device message on a topic matching exactly the telemetry
pattern of entity E (no other entity's uid pattern matches) is routed
exclusively to E: the decoded payload is published only to E's state topic
on the brocker, retained, with the same qos as the inbound message. -/
theorem c6_uid_routing (b : Bridge) (E : Entity) (t p v : String) (q : Nat)
    (huniq : b.entities.filter (fun e => telemetryMatch e.uid t) = [E])
    (hdec : E.get_payload p = some v) :
    (on_poolaccess_message b ⟨some t, some p, q⟩).filter isPub
      = [Event.pubBrocker E.state_topic v q true] := by
  have h := (poolaccess_message_route b E t p q huniq).1
  rw [hdec] at h
  exact h

/-- C6 witness: telemetry "7.2" for uid "12" at qos 1 is published retained
only to the ph sensor's state topic, at qos 1. -/
theorem c6_witness :
    (on_poolaccess_message testBridge
        ⟨some "d02/SN1/v/12", some "7.2", 1⟩).filter isPub
      = [Event.pubBrocker "homeassistant/sensor/SN1/ph/state" "7.2" 1 true] :=
  c6_uid_routing testBridge phSensor "d02/SN1/v/12" "7.2" "7.2" 1 (by rfl)
    rfl

/-- C9, counterexample: the device-message handler does NOT ignore a message
with an empty (but present) payload — the guard checks only for None.  An
empty payload on a matching topic is decoded and republished, contradicting
the claimed absence of decoding and publishing. -/
theorem c9_counterexample :
    ((on_poolaccess_message testBridge
        ⟨some "d02/SN1/v/12", some "", 0⟩).filter isPub
      = [Event.pubBrocker "homeassistant/sensor/SN1/ph/state" "" 0 true])
    ∧ (on_poolaccess_message testBridge
        ⟨some "d02/SN1/v/12", some "", 0⟩).filter isPub ≠ [] := by
  decide

/-- C9 (amended): the device-message handler ignores an inbound message whose
topic or payload is missing (None): for such a message it returns
immediately, with no entity matching, no decoding and no outbound publish.
An empty-but-present topic or payload is not filtered by this guard. -/
theorem c9_none_guard (b : Bridge) (m : MQTTMessage)
    (h : m.topic = none ∨ m.payload = none) :
    on_poolaccess_message b m = [] := by
  unfold on_poolaccess_message
  rcases h with h | h <;> simp [h]

/-- C9 witness: a message with a None topic produces no effect at all. -/
theorem c9_witness :
    on_poolaccess_message testBridge ⟨none, some "7.2", 0⟩ = [] :=
  c9_none_guard testBridge ⟨none, some "7.2", 0⟩ (Or.inl rfl)

/-- C10: the automation-broker message handler matches the command pattern
against every entity regardless of type — a sensor entity whose key matches
a "/set" topic receives the full command treatment (retained state republish
and device write) — even though on_brocker_connect subscribes only the
switch entities' command topics. -/
theorem c10_type_blind_commands (b : Bridge) (E : Entity) (t p : String)
    (q : Nat) (hp : p ≠ "") (hset : endsWithSet t = true)
    (_hsensor : E.etype = "sensor")
    (huniq : b.entities.filter (fun e => commandMatch e.key t) = [E]) :
    ((on_brocker_message b ⟨some t, some p, q⟩).filter isPub
      = [Event.pubBrocker E.state_topic p 0 true,
         Event.pubPoolaccess ("d02/" ++ b.serial ++ "/s/" ++ E.uid) p 0
           false])
    ∧ (on_brocker_connect b 0).filter isSub
        = (b.entities.filter (fun e => e.etype == "switch")).map
            (fun e => Event.subBrocker e.command_topic) :=
  ⟨brocker_message_route b E t p q hp hset huniq, brocker_connect_subs b⟩

/-- C10 witness: a "/set" command matching the ph SENSOR key is given the
full command treatment, while connect-time subscriptions cover only the
relay switch's command topic. -/
theorem c10_witness :
    ((on_brocker_message testBridge
        ⟨some "bayrol/ph/set", some "7.0", 0⟩).filter isPub
      = [Event.pubBrocker "homeassistant/sensor/SN1/ph/state" "7.0" 0 true,
         Event.pubPoolaccess "d02/SN1/s/12" "7.0" 0 false])
    ∧ (on_brocker_connect testBridge 0).filter isSub
        = (testBridge.entities.filter (fun e => e.etype == "switch")).map
            (fun e => Event.subBrocker e.command_topic) :=
  c10_type_blind_commands testBridge phSensor "bayrol/ph/set" "7.0" 0
    (by decide) (by decide) rfl (by rfl)

end Bayrol
